import Mathlib

/-!
Verification model of distrod's distro.rs (CrypteGuy/CrypteSystemDWSL,
src/distrod/libs/src/distro.rs).

The Rust module orchestrates a single container: it persists a run-info
record (rootfs path + init PID) to the fixed path /var/run/distrod.json,
rediscovers a running container from that record, resolves installed
rootfs directories, and manages a tooling-bin PATH prefix.

The embedding below translates the source functions into pure Lean
functions over an explicit world state (the run-info file, a finite
filesystem map, the live-process table, the effective uid/gid of the
calling process).  External collaborators whose code is outside this
module (ProcFile, Container construction, DistrodConfig, EnvFile) are
modelled from the specification and are marked as such in their doc
comments.
-/

/-! ## Strings as lists of characters, and Rust str::replace

The PATH-prefix functions operate on strings; we model them as lists of
characters.  Rust str::replace with a non-empty pattern replaces the
leftmost non-overlapping occurrences, scanning left to right; replaceGo
implements exactly that scan, with a fuel argument (bounded by the input
length, one unit per consumed character) so that the definition is
structurally recursive and kernel-evaluable. -/

def replaceGo (pat repl : List Char) : Nat → List Char → List Char
  | _, [] => []
  | 0, s => s
  | fuel + 1, c :: rest =>
    if pat.isPrefixOf (c :: rest) then
      repl ++ replaceGo pat repl fuel (rest.drop (pat.length - 1))
    else
      c :: replaceGo pat repl fuel rest

/-- Rust str::replace pat → repl (all uses in the source have a non-empty
pattern, for which the fuel never runs out). -/
def replaceAll (pat repl s : List Char) : List Char :=
  replaceGo pat repl s.length s

/-- Counts the non-overlapping occurrences of a pattern, with the same
left-to-right scan as replaceAll. -/
def countGo (pat : List Char) : Nat → List Char → Nat
  | _, [] => 0
  | 0, _ => 0
  | fuel + 1, c :: rest =>
    if pat.isPrefixOf (c :: rest) then
      countGo pat fuel (rest.drop (pat.length - 1)) + 1
    else
      countGo pat fuel rest

def countOccur (pat s : List Char) : Nat :=
  countGo pat s.length s

/-- Rust str::contains for a string pattern: some position of s starts
with pat. -/
def occursIn (pat : List Char) : List Char → Bool
  | [] => pat.isEmpty
  | c :: rest => pat.isPrefixOf (c :: rest) || occursIn pat rest

/-- Modelled from the spec: distrod_config::get_distrod_bin_dir_path
(distrod_config.rs is outside the given sources) is the fixed
tooling-bin directory of the managed PATH prefix. -/
def distrod_bin_dir : List Char := "/opt/distrod/bin".toList

/-- Source add_distrod_bin_to_path: prepends the tooling-bin dir and a
colon to the given PATH string. -/
def add_distrod_bin_to_path (path : List Char) : List Char :=
  distrod_bin_dir ++ ':' :: path

/-- Source remove_distrod_bin_from_path: first replaces every occurrence
of the bin dir followed by a colon with the empty string, then every
occurrence of a colon followed by the bin dir. -/
def remove_distrod_bin_from_path (path : List Char) : List Char :=
  replaceAll (':' :: distrod_bin_dir) []
    (replaceAll (distrod_bin_dir ++ [':']) [] path)

/-! ### Lemmas about the replace scan -/

theorem replaceGo_fuel (pat repl : List Char) :
    ∀ f₁ f₂ s, s.length ≤ f₁ → s.length ≤ f₂ →
      replaceGo pat repl f₁ s = replaceGo pat repl f₂ s := by
  intro f₁
  induction f₁ with
  | zero =>
    intro f₂ s h₁ _
    have hs : s = [] := List.eq_nil_of_length_eq_zero (Nat.le_zero.mp h₁)
    subst hs
    cases f₂ <;> rfl
  | succ g ih =>
    intro f₂ s h₁ h₂
    cases s with
    | nil => cases f₂ <;> rfl
    | cons c rest =>
      cases f₂ with
      | zero => simp at h₂
      | succ g₂ =>
        have hr₁ : rest.length ≤ g := by simp at h₁; omega
        have hr₂ : rest.length ≤ g₂ := by simp at h₂; omega
        have hd : (rest.drop (pat.length - 1)).length ≤ rest.length := by
          simp [List.length_drop]
        simp only [replaceGo]
        by_cases hp : pat.isPrefixOf (c :: rest) = true
        · simp only [hp, if_true]
          exact congrArg (repl ++ ·) (ih g₂ _ (le_trans hd hr₁) (le_trans hd hr₂))
        · simp only [Bool.not_eq_true] at hp
          simp only [hp, Bool.false_eq_true, if_false]
          exact congrArg (c :: ·) (ih g₂ rest hr₁ hr₂)

theorem countGo_fuel (pat : List Char) :
    ∀ f₁ f₂ s, s.length ≤ f₁ → s.length ≤ f₂ →
      countGo pat f₁ s = countGo pat f₂ s := by
  intro f₁
  induction f₁ with
  | zero =>
    intro f₂ s h₁ _
    have hs : s = [] := List.eq_nil_of_length_eq_zero (Nat.le_zero.mp h₁)
    subst hs
    cases f₂ <;> rfl
  | succ g ih =>
    intro f₂ s h₁ h₂
    cases s with
    | nil => cases f₂ <;> rfl
    | cons c rest =>
      cases f₂ with
      | zero => simp at h₂
      | succ g₂ =>
        have hr₁ : rest.length ≤ g := by simp at h₁; omega
        have hr₂ : rest.length ≤ g₂ := by simp at h₂; omega
        have hd : (rest.drop (pat.length - 1)).length ≤ rest.length := by
          simp [List.length_drop]
        simp only [countGo]
        by_cases hp : pat.isPrefixOf (c :: rest) = true
        · simp only [hp, if_true]
          exact congrArg (· + 1) (ih g₂ _ (le_trans hd hr₁) (le_trans hd hr₂))
        · simp only [Bool.not_eq_true] at hp
          simp only [hp, Bool.false_eq_true, if_false]
          exact ih g₂ rest hr₁ hr₂

theorem isPrefixOf_append_self (l t : List Char) : l.isPrefixOf (l ++ t) = true := by
  induction l with
  | nil => simp [List.isPrefixOf]
  | cons a l ih => simp [List.isPrefixOf, ih]

theorem replaceAll_cons_neg (pat repl : List Char) (c : Char) (rest : List Char)
    (h : pat.isPrefixOf (c :: rest) = false) :
    replaceAll pat repl (c :: rest) = c :: replaceAll pat repl rest := by
  simp only [replaceAll, List.length_cons, replaceGo, h, Bool.false_eq_true, if_false]

theorem replaceAll_append_self (pat repl s : List Char) (hne : pat ≠ []) :
    replaceAll pat repl (pat ++ s) = repl ++ replaceAll pat repl s := by
  obtain ⟨p, pt, rfl⟩ : ∃ p pt, pat = p :: pt := by
    cases pat with
    | nil => exact absurd rfl hne
    | cons p pt => exact ⟨p, pt, rfl⟩
  have h1 : ((p :: pt) ++ s).length = (pt.length + s.length) + 1 := by
    simp [List.length_append]
  have hpre : (p :: pt).isPrefixOf ((p :: pt) ++ s) = true := isPrefixOf_append_self _ _
  show replaceGo (p :: pt) repl ((p :: pt) ++ s).length ((p :: pt) ++ s) = _
  rw [h1]
  show replaceGo (p :: pt) repl ((pt.length + s.length) + 1) (p :: (pt ++ s)) = _
  simp only [replaceGo]
  rw [show ((p :: pt) ++ s : List Char) = p :: (pt ++ s) from rfl] at hpre
  simp only [hpre, if_true, List.length_cons, Nat.add_sub_cancel, List.drop_left]
  exact congrArg (repl ++ ·) (replaceGo_fuel _ _ _ _ _ (by omega) (le_refl _))

theorem countOccur_cons_neg (pat : List Char) (c : Char) (rest : List Char)
    (h : pat.isPrefixOf (c :: rest) = false) :
    countOccur pat (c :: rest) = countOccur pat rest := by
  simp only [countOccur, List.length_cons, countGo, h, Bool.false_eq_true, if_false]

theorem countOccur_append_self (pat s : List Char) (hne : pat ≠ []) :
    countOccur pat (pat ++ s) = countOccur pat s + 1 := by
  obtain ⟨p, pt, rfl⟩ : ∃ p pt, pat = p :: pt := by
    cases pat with
    | nil => exact absurd rfl hne
    | cons p pt => exact ⟨p, pt, rfl⟩
  have h1 : ((p :: pt) ++ s).length = (pt.length + s.length) + 1 := by
    simp [List.length_append]
  have hpre : (p :: pt).isPrefixOf ((p :: pt) ++ s) = true := isPrefixOf_append_self _ _
  show countGo (p :: pt) ((p :: pt) ++ s).length ((p :: pt) ++ s) = _
  rw [h1]
  show countGo (p :: pt) ((pt.length + s.length) + 1) (p :: (pt ++ s)) = _
  simp only [countGo]
  rw [show ((p :: pt) ++ s : List Char) = p :: (pt ++ s) from rfl] at hpre
  simp only [hpre, if_true, List.length_cons, Nat.add_sub_cancel, List.drop_left]
  exact congrArg (· + 1) (countGo_fuel _ _ _ _ (by omega) (le_refl _))

theorem isPrefixOf_false_of_occursIn_false (pat s : List Char)
    (h : occursIn pat s = false) : pat.isPrefixOf s = false := by
  cases s with
  | nil =>
    simp only [occursIn] at h
    cases pat with
    | nil => simp at h
    | cons a l => rfl
  | cons c rest =>
    simp only [occursIn, Bool.or_eq_false_iff] at h
    exact h.1

theorem isPrefixOf_app_false (p q s : List Char) (h : p.isPrefixOf s = false) :
    (p ++ q).isPrefixOf s = false := by
  induction p generalizing s with
  | nil => simp [List.isPrefixOf] at h
  | cons a p ih =>
    cases s with
    | nil => rfl
    | cons b bs =>
      simp only [List.isPrefixOf, Bool.and_eq_false_iff] at h
      rcases h with h | h
      · simp [List.isPrefixOf, h]
      · simp [List.isPrefixOf, ih bs h]

theorem occursIn_app_false (p q s : List Char)
    (h : occursIn p s = false) : occursIn (p ++ q) s = false := by
  induction s with
  | nil =>
    simp only [occursIn] at h ⊢
    cases p with
    | nil => simp at h
    | cons a l => rfl
  | cons c rest ih =>
    simp only [occursIn, Bool.or_eq_false_iff] at h ⊢
    exact ⟨isPrefixOf_app_false p q _ h.1, ih h.2⟩

theorem occursIn_cons_false (x : Char) (p s : List Char)
    (h : occursIn p s = false) : occursIn (x :: p) s = false := by
  induction s with
  | nil => rfl
  | cons c rest ih =>
    simp only [occursIn, Bool.or_eq_false_iff] at h ⊢
    refine ⟨?_, ih h.2⟩
    have hrest : p.isPrefixOf rest = false :=
      isPrefixOf_false_of_occursIn_false p rest h.2
    simp [List.isPrefixOf, hrest]

theorem replaceAll_id_of_not_occursIn (pat repl s : List Char)
    (h : occursIn pat s = false) : replaceAll pat repl s = s := by
  induction s with
  | nil => rfl
  | cons c rest ih =>
    simp only [occursIn, Bool.or_eq_false_iff] at h
    rw [replaceAll_cons_neg pat repl c rest h.1, ih h.2]

theorem countOccur_zero_of_not_occursIn (pat s : List Char)
    (h : occursIn pat s = false) : countOccur pat s = 0 := by
  induction s with
  | nil => rfl
  | cons c rest ih =>
    simp only [occursIn, Bool.or_eq_false_iff] at h
    rw [countOccur_cons_neg pat c rest h.1, ih h.2]

/-! ### Claims C4 and C5: the managed PATH prefix -/

/-- C4: for every string S that does not contain the distrod tooling-bin
directory path, remove_distrod_bin_from_path (add_distrod_bin_to_path S)
equals S exactly. -/
theorem add_remove_distrod_bin_roundtrip (s : List Char)
    (h : occursIn distrod_bin_dir s = false) :
    remove_distrod_bin_from_path (add_distrod_bin_to_path s) = s := by
  have h1 : occursIn (distrod_bin_dir ++ [':']) s = false :=
    occursIn_app_false _ _ _ h
  have h2 : occursIn (':' :: distrod_bin_dir) s = false :=
    occursIn_cons_false _ _ _ h
  have hne : distrod_bin_dir ++ ([':'] : List Char) ≠ [] := by simp
  have hadd : add_distrod_bin_to_path s = (distrod_bin_dir ++ [':']) ++ s := by
    simp [add_distrod_bin_to_path]
  rw [remove_distrod_bin_from_path, hadd, replaceAll_append_self _ _ _ hne,
      List.nil_append, replaceAll_id_of_not_occursIn _ _ _ h1,
      replaceAll_id_of_not_occursIn _ _ _ h2]

/-- Witness for C4 at the concrete PATH string /usr/bin:/bin. -/
theorem add_remove_distrod_bin_roundtrip_witness :
    occursIn distrod_bin_dir ("/usr/bin:/bin".toList) = false ∧
      remove_distrod_bin_from_path (add_distrod_bin_to_path ("/usr/bin:/bin".toList)) =
        "/usr/bin:/bin".toList :=
  ⟨by decide, add_remove_distrod_bin_roundtrip ("/usr/bin:/bin".toList) (by decide)⟩

/-- C5 counterexample: add_distrod_bin_to_path is not idempotent; applying
it twice to the empty PATH yields two occurrences of the managed prefix,
not one. -/
theorem add_distrod_bin_not_idempotent :
    countOccur (distrod_bin_dir ++ [':'])
      (add_distrod_bin_to_path (add_distrod_bin_to_path [])) ≠ 1 := by
  decide

/-- C5 amended: applying add_distrod_bin_to_path twice to a string that
does not contain the tooling-bin dir yields exactly two occurrences of the
managed prefix (each application unconditionally prepends one copy); the
managed-prefix count is 2, not 1. -/
theorem add_distrod_bin_twice_count (s : List Char)
    (h : occursIn distrod_bin_dir s = false) :
    countOccur (distrod_bin_dir ++ [':'])
      (add_distrod_bin_to_path (add_distrod_bin_to_path s)) = 2 := by
  have h1 : occursIn (distrod_bin_dir ++ [':']) s = false :=
    occursIn_app_false _ _ _ h
  have hne : distrod_bin_dir ++ ([':'] : List Char) ≠ [] := by simp
  have hadd : ∀ t : List Char,
      add_distrod_bin_to_path t = (distrod_bin_dir ++ [':']) ++ t := by
    intro t; simp [add_distrod_bin_to_path]
  rw [hadd, hadd, countOccur_append_self _ _ hne, countOccur_append_self _ _ hne,
      countOccur_zero_of_not_occursIn _ _ h1]

/-- Witness for C5's amended theorem at the empty PATH string. -/
theorem add_distrod_bin_twice_count_witness :
    occursIn distrod_bin_dir [] = false ∧
      countOccur (distrod_bin_dir ++ [':'])
        (add_distrod_bin_to_path (add_distrod_bin_to_path [])) = 2 :=
  ⟨by decide, add_distrod_bin_twice_count [] (by decide)⟩

/-! ## Data model of distro.rs

The world state carries the run-info file at the fixed path
/var/run/distrod.json (DISTRO_RUN_INFO_PATH), a finite map from paths to
filesystem nodes, the set of live PIDs, the effective uid/gid of the
calling process, and the data supplied by external collaborators. -/

structure Container where
  init_pid : Option Nat
  deriving DecidableEq

structure Distro where
  rootfs : String
  container : Container
  deriving DecidableEq

structure DistroRunInfo where
  rootfs : String
  init_pid : Nat
  deriving DecidableEq

/-- The byte content of the run-info file, at the granularity the source
distinguishes: a valid JSON encoding of a DistroRunInfo record, the empty
file a fresh creation leaves behind, or bytes that fail to deserialize. -/
inductive FileContent
  | empty
  | runInfo (r : DistroRunInfo)
  | garbage
  deriving DecidableEq

/-- serde_json deserialization of the run-info file (the serde_json crate
is external): only a valid encoding yields a record; the empty file and
garbage fail. -/
def parseRunInfo : FileContent → Option DistroRunInfo
  | FileContent.runInfo r => some r
  | _ => none

structure RunFile where
  content : FileContent
  uid : Nat
  gid : Nat
  deriving DecidableEq

inductive FsNode
  | dir
  | file (content : String)
  deriving DecidableEq

inductive Err
  | unsafeRunInfoFile
  | jsonParseError
  | notLaunched
  | noConfig
  | notADirectory (p : String)
  | ioError (p : String)
  | bug
  deriving DecidableEq

structure World where
  runInfo : Option RunFile
  fs : List (String × FsNode)
  livePids : List Nat
  euid : Nat
  egid : Nat
  hostname : String
  config : Option String
  wslEnv : List (String × String)
  unitEvents : List (String × String)
  deriving DecidableEq

/-- The content of the run-info file in a world, if the file exists. -/
def runContent (w : World) : Option FileContent :=
  w.runInfo.map RunFile.content

/-- Source get_distro_run_info_file: opens DISTRO_RUN_INFO_PATH with the
given create/write OpenOptions flags.  ENOENT without create is returned
as ok-none; with create, an absent file is first created empty and owned
by the calling process's effective uid/gid.  A file whose owner uid or
group gid is not 0 is rejected with an error (after any creation has
already happened).  Returns the opened file, if any, with the resulting
world. -/
def get_distro_run_info_file (create write : Bool) (w : World) :
    Except Err (Option RunFile) × World :=
  match w.runInfo with
  | some f =>
    if f.uid ≠ 0 ∨ f.gid ≠ 0 then (Except.error Err.unsafeRunInfoFile, w)
    else (Except.ok (some f), w)
  | none =>
    if create then
      let f : RunFile := { content := FileContent.empty, uid := w.euid, gid := w.egid }
      let w' : World := { w with runInfo := some f }
      if f.uid ≠ 0 ∨ f.gid ≠ 0 then (Except.error Err.unsafeRunInfoFile, w')
      else (Except.ok (some f), w')
    else (Except.ok none, w)

/-- Modelled from the spec: ProcFile::from_pid (procfile.rs is outside the
given sources) returns no handle when the PID is not a currently live
process, and a handle bound to that process otherwise (spec section 4.3). -/
def ProcFile.from_pid (w : World) (pid : Nat) : Option Nat :=
  if pid ∈ w.livePids then some pid else none

/-- Modelled from the spec: Container::from_pid (container.rs is outside
the given sources) reconstructs a Container bound to an already-running
init PID, without re-running launch (spec section 4.1). -/
def Container.from_pid (pid : Nat) : Container :=
  { init_pid := some pid }

/-- Modelled from the spec: Container::new (container.rs is outside the
given sources) produces an unlaunched container, with no init PID yet
(spec section 3). -/
def Container.new : Container :=
  { init_pid := none }

/-- Source Distro::get_running_distro: opens the run-info file (absent
file gives ok-none), deserializes it, validates the recorded init PID
against the live process table, and only then reconstructs a Distro. -/
def Distro.get_running_distro (w : World) : Except Err (Option Distro) :=
  match (get_distro_run_info_file false false w).1 with
  | Except.error e => Except.error e
  | Except.ok none => Except.ok none
  | Except.ok (some f) =>
    match parseRunInfo f.content with
    | none => Except.error Err.jsonParseError
    | some run_info =>
      match ProcFile.from_pid w run_info.init_pid with
      | none => Except.ok none
      | some pid =>
        Except.ok (some { rootfs := run_info.rootfs, container := Container.from_pid pid })

def isDir (w : World) (p : String) : Bool :=
  match w.fs.lookup p with
  | some FsNode.dir => true
  | _ => false

/-- Source Distro::get_installed_distro: with an explicit path, an
unlaunched Distro on that rootfs if it is a directory and ok-none
otherwise; with no path, the configured default image path is resolved
first (a configuration failure is an error). -/
def Distro.get_installed_distro (w : World) (rootfs : Option String) :
    Except Err (Option Distro) :=
  let create_container : String → Except Err (Option Distro) := fun path =>
    if ! isDir w path then Except.ok none
    else Except.ok (some { rootfs := path, container := Container.new })
  match rootfs with
  | some p => create_container p
  | none =>
    match w.config with
    | none => Except.error Err.noConfig
    | some image => create_container image

/-- Source Distro::export_run_info: if a readable run-info file exists it
is removed first; then the file is (re)created via
get_distro_run_info_file(create, write); only after that is the
container's init PID demanded, and the record finally written. -/
def Distro.export_run_info (d : Distro) (w : World) : Except Err Unit × World :=
  let w₀ : World :=
    match (get_distro_run_info_file false false w).1 with
    | Except.ok (some _) => { w with runInfo := none }
    | _ => w
  match get_distro_run_info_file true true w₀ with
  | (Except.error e, w₁) => (Except.error e, w₁)
  | (Except.ok none, w₁) => (Except.error Err.bug, w₁)
  | (Except.ok (some _), w₁) =>
    match d.container.init_pid with
    | none => (Except.error Err.notLaunched, w₁)
    | some pid =>
      match w₁.runInfo with
      | none => (Except.error Err.bug, w₁)
      | some f =>
        (Except.ok (),
          { w₁ with runInfo := some { f with
              content := FileContent.runInfo { rootfs := d.rootfs, init_pid := pid } } })

/-- Replaces (or creates) the node at a path in the filesystem map. -/
def fsSet (fs : List (String × FsNode)) (p : String) (n : FsNode) :
    List (String × FsNode) :=
  (p, n) :: fs.filter (fun e => e.1 != p)

/-- The glob etc/systemd/network/*.network under the given rootfs:
filesystem entries directly inside that directory (a glob star does not
cross a path separator) whose name ends in .network. -/
def globNetworkFiles (w : World) (path : String) : List String :=
  (w.fs.filter (fun e =>
    e.1.startsWith (path ++ "/etc/systemd/network/")
      && e.1.endsWith (".network")
      && !((e.1.drop (path ++ "/etc/systemd/network/").length).contains '/'))).map
    (fun e => e.1)

/-- Modelled from the spec: the SystemdUnitDisabler collaborator
(systemdunit.rs is outside the given sources); disable/mask actions are
recorded as events, and their failures are logged, never fatal (spec
section 6).  These are the five fixed units the source disables or
masks. -/
def initUnitEvents : List (String × String) :=
  [("disable", "dhcpcd.service"), ("disable", "NetworkManager.service"),
   ("disable", "multipathd.service"), ("mask", "systemd-remount-fs.service"),
   ("mask", "systemd-modules-load.service")]

/-- Source initialize_distro_rootfs: demands the path be an existing
directory before anything else; then removes the systemd network
configuration files, writes the hostname, optionally replaces
etc/resolv.conf with an empty file, and disables or masks the fixed
systemd units. -/
def initialize_distro_rootfs (w : World) (path : String) (overwrite : Bool) :
    Except Err Unit × World :=
  match w.fs.lookup path with
  | none => (Except.error (Err.ioError path), w)
  | some n =>
    if n ≠ FsNode.dir then (Except.error (Err.notADirectory path), w)
    else
      let netFiles := globNetworkFiles w path
      let w₁ : World := { w with fs := w.fs.filter (fun e => !(netFiles.contains e.1)) }
      let w₂ : World :=
        { w₁ with fs := fsSet w₁.fs (path ++ "/etc/hostname") (FsNode.file w.hostname) }
      if overwrite then
        let rp := path ++ "/etc/resolv.conf"
        match w₂.fs.lookup rp with
        | none => (Except.error (Err.ioError rp), w₂)
        | some _ =>
          let w₃ : World := { w₂ with fs := fsSet w₂.fs rp (FsNode.file ("")) }
          (Except.ok (), { w₃ with unitEvents := w₃.unitEvents ++ initUnitEvents })
      else
        (Except.ok (), { w₂ with unitEvents := w₂.unitEvents ++ initUnitEvents })

/-- Modelled from the spec: the EnvFile-based content rewrite performed by
cleanup_etc_environment_file (envfile.rs and wsl_interop.rs are outside
the given sources): drops the lines of the WSL-injected keys and strips
the managed tooling-bin prefix from the PATH line (spec sections 4.4 and
4.5). -/
def cleanupEnvContent (wsl : List (String × String)) (content : String) : String :=
  let lines := content.splitOn ("\x0A")
  let kept := lines.filter (fun l => !(wsl.any (fun kv => l.startsWith (kv.1 ++ "="))))
  let mapped := kept.map (fun l =>
    if l.startsWith ("PATH=") then
      "PATH=" ++ String.mk (remove_distrod_bin_from_path ((l.drop 5).toList))
    else l)
  String.intercalate ("\x0A") mapped

/-- Modelled from the spec: cleanup_etc_environment_file reverses the
environment-file injection in rootfs/etc/environment; an absent file is a
successful no-op (the source returns Ok early in that case). -/
def cleanup_etc_environment_file (w : World) (path : String) :
    Except Err Unit × World :=
  let p := path ++ "/etc/environment"
  match w.fs.lookup p with
  | none => (Except.ok (), w)
  | some (FsNode.file content) =>
    (Except.ok (),
      { w with fs := fsSet w.fs p (FsNode.file (cleanupEnvContent w.wslEnv content)) })
  | some FsNode.dir => (Except.error (Err.ioError p), w)

/-- Source cleanup_distro_rootfs: demands the path be an existing
directory before anything else, then reverses only the environment-file
injection. -/
def cleanup_distro_rootfs (w : World) (path : String) : Except Err Unit × World :=
  match w.fs.lookup path with
  | none => (Except.error (Err.ioError path), w)
  | some n =>
    if n ≠ FsNode.dir then (Except.error (Err.notADirectory path), w)
    else cleanup_etc_environment_file w path

/-! ## Claims about the run-info lifecycle -/

/-- C1: for every persisted run-info record (file present, root-owned,
deserializable) whose recorded init PID does not map to a currently live
process, get_running_distro returns none rather than a reconstructed
Distro. -/
theorem get_running_distro_stale_pid_none (w : World) (f : RunFile) (r : DistroRunInfo)
    (hf : w.runInfo = some f) (hu : f.uid = 0) (hg : f.gid = 0)
    (hc : f.content = FileContent.runInfo r)
    (hp : ProcFile.from_pid w r.init_pid = none) :
    Distro.get_running_distro w = Except.ok none := by
  simp [Distro.get_running_distro, get_distro_run_info_file, hf, hu, hg, hc,
    parseRunInfo, hp]

def recSample : DistroRunInfo := { rootfs := "/distro/rootfs", init_pid := 42 }

def fileSample : RunFile := { content := FileContent.runInfo recSample, uid := 0, gid := 0 }

def wStale : World :=
  { runInfo := some fileSample, fs := [], livePids := [], euid := 0, egid := 0,
    hostname := "host", config := none, wslEnv := [], unitEvents := [] }

/-- Witness for C1: a concrete root-owned record for PID 42 with an empty
live-process table. -/
theorem get_running_distro_stale_pid_none_witness :
    wStale.runInfo = some fileSample ∧ fileSample.uid = 0 ∧ fileSample.gid = 0 ∧
      fileSample.content = FileContent.runInfo recSample ∧
      ProcFile.from_pid wStale recSample.init_pid = none ∧
      Distro.get_running_distro wStale = Except.ok none :=
  ⟨rfl, rfl, rfl, rfl, by decide,
    get_running_distro_stale_pid_none wStale fileSample recSample rfl rfl rfl rfl
      (by decide)⟩

/-- C2: whenever the run-info file exists but its owner uid or group gid
is not 0, get_distro_run_info_file (under any create/write flags) and
hence get_running_distro fail with an error, never returning the file or
treating it as absent. -/
theorem run_info_file_nonroot_fails (w : World) (f : RunFile) (c wr : Bool)
    (hf : w.runInfo = some f) (h : f.uid ≠ 0 ∨ f.gid ≠ 0) :
    (get_distro_run_info_file c wr w).1 = Except.error Err.unsafeRunInfoFile ∧
      Distro.get_running_distro w = Except.error Err.unsafeRunInfoFile := by
  constructor
  · simp [get_distro_run_info_file, hf, h]
  · simp [Distro.get_running_distro, get_distro_run_info_file, hf, h]

def fileNonRoot : RunFile := { content := FileContent.runInfo recSample, uid := 1000, gid := 1000 }

def wNonRoot : World :=
  { runInfo := some fileNonRoot, fs := [], livePids := [42], euid := 0, egid := 0,
    hostname := "host", config := none, wslEnv := [], unitEvents := [] }

/-- Witness for C2: a concrete file owned by uid/gid 1000. -/
theorem run_info_file_nonroot_fails_witness :
    wNonRoot.runInfo = some fileNonRoot ∧ fileNonRoot.uid = 1000 ∧
      (get_distro_run_info_file false false wNonRoot).1 =
        Except.error Err.unsafeRunInfoFile ∧
      Distro.get_running_distro wNonRoot = Except.error Err.unsafeRunInfoFile :=
  ⟨rfl, rfl,
    (run_info_file_nonroot_fails wNonRoot fileNonRoot false false rfl
      (Or.inl (by decide))).1,
    (run_info_file_nonroot_fails wNonRoot fileNonRoot false false rfl
      (Or.inl (by decide))).2⟩

/-- C10: if the run-info file exists and is root-owned but its contents do
not deserialize to a run-info record (for example, the file is empty),
get_running_distro returns an error, not none. -/
theorem get_running_distro_invalid_json_error (w : World) (f : RunFile)
    (hf : w.runInfo = some f) (hu : f.uid = 0) (hg : f.gid = 0)
    (hp : parseRunInfo f.content = none) :
    Distro.get_running_distro w = Except.error Err.jsonParseError := by
  simp [Distro.get_running_distro, get_distro_run_info_file, hf, hu, hg, hp]

def fileEmptyRoot : RunFile := { content := FileContent.empty, uid := 0, gid := 0 }

def wEmptyFile : World :=
  { runInfo := some fileEmptyRoot, fs := [], livePids := [], euid := 0, egid := 0,
    hostname := "host", config := none, wslEnv := [], unitEvents := [] }

/-- Witness for C10: a concrete root-owned empty run-info file. -/
theorem get_running_distro_invalid_json_error_witness :
    wEmptyFile.runInfo = some fileEmptyRoot ∧
      fileEmptyRoot.content = FileContent.empty ∧
      Distro.get_running_distro wEmptyFile = Except.error Err.jsonParseError :=
  ⟨rfl, rfl,
    get_running_distro_invalid_json_error wEmptyFile fileEmptyRoot rfl rfl rfl (by decide)⟩

/-- C3: export_run_info on a Distro whose Container is unlaunched returns
an error and never writes a run-info record: the persisted file afterwards
is either exactly what it was before the call or the empty file the
creation step left behind. -/
theorem export_run_info_unlaunched_fails (d : Distro) (w : World)
    (h : d.container.init_pid = none) :
    (Distro.export_run_info d w).1.isOk = false ∧
      ((Distro.export_run_info d w).2.runInfo = w.runInfo ∨
        runContent (Distro.export_run_info d w).2 = some FileContent.empty) := by
  rcases hw : w.runInfo with _ | f
  · by_cases he : w.euid ≠ 0 ∨ w.egid ≠ 0 <;>
      simp [Distro.export_run_info, get_distro_run_info_file, runContent, Except.isOk, Except.toBool, hw, he, h]
  · by_cases hf : f.uid ≠ 0 ∨ f.gid ≠ 0
    · simp [Distro.export_run_info, get_distro_run_info_file, runContent, Except.isOk, Except.toBool, hw, hf, h]
    · by_cases he : w.euid ≠ 0 ∨ w.egid ≠ 0 <;>
        simp [Distro.export_run_info, get_distro_run_info_file, runContent, Except.isOk, Except.toBool, hw, hf, he, h]

def dUnlaunched : Distro := { rootfs := "/distro/rootfs", container := Container.new }

/-- Witness for C3: exporting from an unlaunched Distro into the world
holding the concrete persisted record. -/
theorem export_run_info_unlaunched_fails_witness :
    dUnlaunched.container.init_pid = none ∧
      ((Distro.export_run_info dUnlaunched wStale).1.isOk = false ∧
        ((Distro.export_run_info dUnlaunched wStale).2.runInfo = wStale.runInfo ∨
          runContent (Distro.export_run_info dUnlaunched wStale).2 =
            some FileContent.empty)) :=
  ⟨rfl, export_run_info_unlaunched_fails dUnlaunched wStale rfl⟩

/-- C9: export_run_info is not atomic on failure: with a persisted
root-owned record present and an unlaunched Container, it returns an error
yet the old record has already been removed, leaving a fresh empty file at
the fixed path. -/
theorem export_run_info_destroys_record (d : Distro) (w : World) (r : DistroRunInfo)
    (hf : w.runInfo = some { content := FileContent.runInfo r, uid := 0, gid := 0 })
    (h : d.container.init_pid = none) :
    (Distro.export_run_info d w).1.isOk = false ∧
      runContent (Distro.export_run_info d w).2 = some FileContent.empty := by
  by_cases he : w.euid ≠ 0 ∨ w.egid ≠ 0 <;>
    simp [Distro.export_run_info, get_distro_run_info_file, runContent, Except.isOk, Except.toBool, hf, he, h]

/-- Witness for C9: the concrete record for PID 42 is destroyed by a
failing export from an unlaunched Distro. -/
theorem export_run_info_destroys_record_witness :
    wStale.runInfo = some { content := FileContent.runInfo recSample, uid := 0, gid := 0 } ∧
      dUnlaunched.container.init_pid = none ∧
      ((Distro.export_run_info dUnlaunched wStale).1.isOk = false ∧
        runContent (Distro.export_run_info dUnlaunched wStale).2 =
          some FileContent.empty) :=
  ⟨rfl, rfl, export_run_info_destroys_record dUnlaunched wStale recSample rfl rfl⟩

/-! ## Claims about rootfs resolution and rootfs operations -/

/-- C7: for every path that is not a directory, get_installed_distro with
that explicit path returns ok-none (an absent result), not an error. -/
theorem get_installed_distro_not_dir_none (w : World) (p : String)
    (h : isDir w p = false) :
    Distro.get_installed_distro w (some p) = Except.ok none := by
  simp [Distro.get_installed_distro, h]

def wPlain : World :=
  { runInfo := none, fs := [("/data/file.txt", FsNode.file ("hello"))],
    livePids := [], euid := 0, egid := 0, hostname := "host", config := none,
    wslEnv := [], unitEvents := [] }

/-- Witness for C7: a world whose filesystem holds only a regular file. -/
theorem get_installed_distro_not_dir_none_witness :
    isDir wPlain ("/data/file.txt") = false ∧
      Distro.get_installed_distro wPlain (some ("/data/file.txt")) = Except.ok none :=
  ⟨by decide, get_installed_distro_not_dir_none wPlain ("/data/file.txt") (by decide)⟩

/-- C6 counterexample: on a non-directory path, get_installed_distro does
not fail; at this concrete input it returns ok-none, an ok result. -/
theorem get_installed_distro_not_dir_no_error_cex :
    isDir wPlain ("/data/file.txt") = false ∧
      Distro.get_installed_distro wPlain (some ("/data/file.txt")) = Except.ok none ∧
      (Distro.get_installed_distro wPlain (some ("/data/file.txt"))).isOk = true :=
  ⟨by decide, rfl, rfl⟩

/-- C6 amended: for every path that is not a directory, get_installed_distro
with that explicit path returns the absent result ok-none; it does not
fail with an error. -/
theorem get_installed_distro_not_dir_absent (w : World) (p : String)
    (h : isDir w p = false) :
    Distro.get_installed_distro w (some p) = Except.ok none ∧
      (Distro.get_installed_distro w (some p)).isOk = true := by
  simp [Distro.get_installed_distro, Except.isOk, Except.toBool, h]

/-- Witness for C6's amended theorem at a concrete non-directory path. -/
theorem get_installed_distro_not_dir_absent_witness :
    isDir wPlain ("/other") = false ∧
      (Distro.get_installed_distro wPlain (some ("/other")) = Except.ok none ∧
        (Distro.get_installed_distro wPlain (some ("/other"))).isOk = true) :=
  ⟨by decide, get_installed_distro_not_dir_absent wPlain ("/other") (by decide)⟩

/-- C8: for every path that exists but is not a directory, both
initialize_distro_rootfs and cleanup_distro_rootfs fail with the
not-a-directory error and leave the world entirely unchanged. -/
theorem rootfs_ops_not_dir_fail_unchanged (w : World) (p : String) (n : FsNode) (b : Bool)
    (hn : w.fs.lookup p = some n) (hd : n ≠ FsNode.dir) :
    initialize_distro_rootfs w p b = (Except.error (Err.notADirectory p), w) ∧
      cleanup_distro_rootfs w p = (Except.error (Err.notADirectory p), w) := by
  constructor <;> simp [initialize_distro_rootfs, cleanup_distro_rootfs, hn, hd]

/-- Witness for C8: the concrete regular file path, under both values of
the overwrite flag via the universally quantified theorem applied at
true. -/
theorem rootfs_ops_not_dir_fail_unchanged_witness :
    wPlain.fs.lookup ("/data/file.txt") = some (FsNode.file ("hello")) ∧
      FsNode.file ("hello") ≠ FsNode.dir ∧
      (initialize_distro_rootfs wPlain ("/data/file.txt") true =
          (Except.error (Err.notADirectory ("/data/file.txt")), wPlain) ∧
        cleanup_distro_rootfs wPlain ("/data/file.txt") =
          (Except.error (Err.notADirectory ("/data/file.txt")), wPlain)) :=
  ⟨rfl, by decide,
    rootfs_ops_not_dir_fail_unchanged wPlain ("/data/file.txt") (FsNode.file ("hello"))
      true rfl (by decide)⟩
